import Mathlib

/-
Verification development for the `tabilly` (slobsterble) authentication and
verification-token core, `src/slobsterble/apis/auth.py`.

Modelling conventions:
* Werkzeug's salted password hashing (`generate_password_hash` /
  `check_password_hash`) is modelled by a `PwHash` carrying the salt drawn
  from a random stream and the hashed plaintext.  Two hashes of the same
  plaintext with different salts are unequal as values, while
  `check_password_hash` ignores the salt — exactly the properties of a
  self-salting one-way hash that the code relies on (and, in
  `EmailVerificationView`, violates).
* The random streams behind `werkzeug.generate_password_hash` (salts) and
  `secrets.token_urlsafe` (tokens) are modelled as counters `nextSalt` and
  `nextTok` carried in the state; each call consumes the next value, so no
  two calls produce the same salt or token.
* The SQLAlchemy session/commit discipline is modelled by each handler
  returning the committed database: an early `return` (or a propagating
  exception) before `db.session.commit()` leaves the persistent state
  unchanged apart from the consumed randomness.
* Handlers that can raise an unhandled Python exception (`SMTPException`
  re-raised by the mail helpers, the `NameError` in
  `WebsiteRegisterView.post`) return `Except PyError`.
* `flask` `Response(body, status)` values are modelled by `HttpResponse`;
  `render_template` responses are represented by their flash message (the
  only distinguishing content the claims mention) with status 200.
-/

/-- Unhandled Python exceptions that can propagate out of a handler. -/
inductive PyError where
  | smtpError
  | nameError
deriving DecidableEq, Repr

/-- A werkzeug-style salted one-way hash: `salt` records which value of the
random salt stream was used, `body` the hashed plaintext. -/
structure PwHash where
  salt : Nat
  body : String
deriving DecidableEq, BEq, Repr

/-- Model of `werkzeug.security.generate_password_hash`: hash `password`
with the given fresh salt. -/
def generate_password_hash (salt : Nat) (password : String) : PwHash :=
  ⟨salt, password⟩

/-- Model of `werkzeug.security.check_password_hash`: constant-time verify of
the plaintext against the stored digest; independent of the salt. -/
def check_password_hash (h : PwHash) (password : String) : Bool :=
  h.body == password

/-- Modelled from the spec: the Identity record.  The `User` model file is
not under `src/`; the fields follow the spec's Identity (unique username,
password verifier hash, `verified` flag, and the refresh-epoch marker, which
`auth.py` reads and writes as `refresh_token_iat`).  `token_iat` is the
additional attribute that `LogoutView.post` assigns; the spec gives Identity
a single refresh-epoch marker, so `token_iat` is modelled as an attribute
distinct from `refresh_token_iat`. -/
structure User where
  username : String
  password_hash : PwHash
  verified : Bool
  refresh_token_iat : Option Int
  token_iat : Option Int
deriving DecidableEq, Repr

/-- One row of the `UserVerification` table, as used by `auth.py`. -/
structure VerificationRecord where
  username : String
  token_hash : PwHash
  expiration_timestamp : Int
  used : Bool
deriving DecidableEq, Repr

/-- One row of the `Device` table, as used by `LoginView.post` (keyed here by
username instead of the numeric user id, which the model does not carry). -/
structure Device where
  user_username : String
  device_token : String
  refreshed : Int
deriving DecidableEq, Repr

/-- A row of the `Player` table, reduced to the fields `RegisterView` sets
that the claims can observe. -/
structure Player where
  user_username : String
  display_name : String
deriving DecidableEq, Repr

/-- The persistent store plus the random streams consumed by hashing and
token generation.  `hasDefaultDictionary` models whether the
`Dictionary(id=2)` row that `RegisterView.post` requires exists. -/
structure DB where
  users : List User
  verifications : List VerificationRecord
  players : List Player
  devices : List Device
  hasDefaultDictionary : Bool
  nextSalt : Nat
  nextTok : Nat
deriving DecidableEq, Repr

/-- A flask `Response(body, status)`. -/
structure HttpResponse where
  status : Nat
  body : String
deriving DecidableEq, Repr

deriving instance DecidableEq for Except

/-- Update the first element satisfying `p` (SQLAlchemy attribute assignment
on the row returned by a query, then commit). -/
def updateFirst (p : α → Bool) (f : α → α) : List α → List α
  | [] => []
  | x :: xs => if p x then f x :: xs else x :: updateFirst p f xs

/-- Python `min` over a list known to be nonempty (the `[]` case is never
reached by the callers, which guard on the list's length). -/
def listMin : List Int → Int
  | [] => 0
  | x :: xs => xs.foldl min x

/-- True when no character of the list is a newline (regex `.` matches any
character except `\n`). -/
def noNewlineChars (l : List Char) : Bool :=
  l.all (fun c => c != '\n')

/-- Model of `re.match(r".+@.+\..+", s)` being non-`None`: some prefix of
`s` decomposes as one-or-more non-newline characters, `@`, one-or-more
non-newline characters, `.`, and at least one further non-newline
character. -/
def reMatchBasicEmail (s : List Char) : Bool :=
  (List.range s.length).any (fun i =>
    (List.range s.length).any (fun j =>
      decide (1 ≤ i) && (s.getD i '\n' == '@') && noNewlineChars (s.take i) &&
      decide (i + 2 ≤ j) && (s.getD j '\n' == '.') &&
      noNewlineChars ((s.drop (i + 1)).take (j - i - 1)) &&
      decide (j + 1 < s.length) && (s.getD (j + 1) '\n' != '\n')))

/-- Model of `_is_plausible_email` in `auth.py`. -/
def is_plausible_email (email_to_verify : String) : Bool :=
  if email_to_verify.length > 320 then false
  else reMatchBasicEmail email_to_verify.data

/-- One character of the class `[0-9A-Za-z_\-]` (ASCII, as in Python `re`). -/
def isTokenChar (c : Char) : Bool :=
  (decide ('0' ≤ c) && decide (c ≤ '9')) ||
  (decide ('A' ≤ c) && decide (c ≤ 'Z')) ||
  (decide ('a' ≤ c) && decide (c ≤ 'z')) ||
  c == '_' || c == '-'

/-- Model of `re.fullmatch(r"[0-9A-Za-z_\-]+", token)` being non-`None`. -/
def tokenShapeOk (token : String) : Bool :=
  !token.data.isEmpty && token.data.all isTokenChar

/-- Modelled from the spec: `REGISTRATION_VERIFICATION_SECONDS` from
`slobsterble/constants.py` (not under `src/`); the spec fixes no numeric
value, only a configured positive registration-verification TTL. -/
def REGISTRATION_VERIFICATION_SECONDS : Int := 86400

/-- Modelled from the spec: `PASSWORD_RESET_VERIFICATION_SECONDS` from
`slobsterble/constants.py` (not under `src/`); a configured positive
password-reset-verification TTL, distinct from the registration TTL. -/
def PASSWORD_RESET_VERIFICATION_SECONDS : Int := 3600

/-- Modelled from the spec: `jwt_config.access_expires` in seconds (flask-jwt
configuration, not under `src/`). -/
def ACCESS_EXPIRES_SECONDS : Int := 900

/-- Modelled from the spec: `jwt_config.refresh_expires` in seconds
(flask-jwt configuration, not under `src/`). -/
def REFRESH_EXPIRES_SECONDS : Int := 2592000

/-- A decoded JWT access token: the identity it names, its `fresh` flag and
its issued-at time. -/
structure AccessToken where
  identity : String
  fresh : Bool
  iat : Int
deriving DecidableEq, Repr

/-- Model of `secrets.token_urlsafe()` drawing the next value of the token
stream; the produced characters lie in the URL-safe base64 alphabet, hence
match `[0-9A-Za-z_\-]+`. -/
def token_urlsafe (n : Nat) : String :=
  "tok" ++ toString n

/-- Model of `_build_verification_record` in `auth.py`: draw a fresh token,
hash it with a fresh salt, and build the (not yet persisted) record. -/
def build_verification_record (db : DB) (email_address : String)
    (is_registration : Bool) (now : Int) : (VerificationRecord × String) × DB :=
  let verification_token := token_urlsafe db.nextTok
  let token_hash := generate_password_hash db.nextSalt verification_token
  let expiration_timestamp :=
    now + (if is_registration then REGISTRATION_VERIFICATION_SECONDS
           else PASSWORD_RESET_VERIFICATION_SECONDS)
  ((⟨email_address, token_hash, expiration_timestamp, false⟩, verification_token),
   { db with nextSalt := db.nextSalt + 1, nextTok := db.nextTok + 1 })

/-- Model of `send_verification_email` in `auth.py`: the `SMTPException` from
the mail boundary is logged and re-raised, so a failed dispatch propagates to
the caller. -/
def send_verification_email (emailOk : Bool) : Except PyError Unit :=
  if emailOk then .ok () else .error .smtpError

/-- Model of `send_password_reset_email` in `auth.py`: same re-raise
behaviour as `send_verification_email`. -/
def send_password_reset_email (emailOk : Bool) : Except PyError Unit :=
  if emailOk then .ok () else .error .smtpError

/-- Result of `TokenRefreshView.post`: either `Response(status=401)` (the
stored issued-at marker did not match) or the JSON payload with the new
access token and its expiration timestamp. -/
inductive RefreshResult where
  | revoked
  | refreshed (token : AccessToken) (expiration_date : Int)
deriving DecidableEq, Repr

/-- Model of `TokenRefreshView.post`: `current_user` is the identity the
refresh JWT names, `jwt_iat` the decoded `iat` claim of the presented refresh
token (`jwt.get("iat", 0)`), `now` the issue time of the new access token. -/
def tokenRefreshPost (current_user : User) (jwt_iat : Option Int) (now : Int) :
    RefreshResult × User :=
  let refresh_token_iat := jwt_iat.getD 0
  if current_user.refresh_token_iat ≠ some refresh_token_iat then
    (.revoked, current_user)
  else
    (.refreshed ⟨current_user.username, false, now⟩ (now + ACCESS_EXPIRES_SECONDS),
     current_user)

/-- Result of `LoginView.post`: the single `Response("Incorrect username or
password", status=401)` (issued identically when the username is unknown and
when the password check fails), or the token payload. -/
inductive LoginResult where
  | invalidCredentials
  | loggedIn (access : AccessToken) (access_expiration : Int)
      (refresh_iat : Int) (refresh_expiration : Int)
deriving DecidableEq, Repr

/-- Model of `LoginView.post`.  On success the refresh token is created at
`now` (so its decoded `iat` is `now`), and that value is persisted into the
user's `refresh_token_iat` before commit. -/
def loginPost (db : DB) (username password : String)
    (deviceToken : Option String) (now : Int) : LoginResult × DB :=
  match db.users.find? (fun u => u.username == username) with
  | none => (.invalidCredentials, db)
  | some user =>
    if !check_password_hash user.password_hash password then
      (.invalidCredentials, db)
    else
      let users := updateFirst (fun u => u.username == username)
        (fun u => { u with refresh_token_iat := some now }) db.users
      let devices :=
        match deviceToken with
        | none => db.devices
        | some t =>
          match db.devices.find?
              (fun d => d.user_username == username && d.device_token == t) with
          | none => db.devices ++ [⟨username, t, now⟩]
          | some _ => updateFirst
              (fun d => d.user_username == username && d.device_token == t)
              (fun d => { d with refreshed := now }) db.devices
      (.loggedIn ⟨username, true, now⟩ (now + ACCESS_EXPIRES_SECONDS)
         now (now + REFRESH_EXPIRES_SECONDS),
       { db with users := users, devices := devices })

/-- Model of `LogoutView.post` for the authenticated user named `username`:
it assigns `current_user.token_iat = None` and commits. -/
def logoutPost (db : DB) (username : String) : HttpResponse × DB :=
  (⟨200, "Success"⟩,
   { db with
     users := updateFirst (fun u => u.username == username)
       (fun u => { u with token_iat := none }) db.users })

/-- The lookup predicate of `EmailVerificationView.post`:
`filter_by(username=..., token_hash=...)`, an equality comparison on the
freshly generated hash. -/
def emailLookup (username : String) (token_hash : PwHash)
    (r : VerificationRecord) : Bool :=
  r.username == username && r.token_hash == token_hash

/-- Model of `EmailVerificationView.post`.  `username`/`token` are the JSON
fields (`none` models an absent key; the empty string is equally falsy). -/
def emailVerificationPost (db : DB) (username token : Option String)
    (now : Int) : HttpResponse × DB :=
  let usernameS := username.getD ""
  let tokenS := token.getD ""
  if usernameS == "" || tokenS == "" then
    (⟨400, "Verification failed. Missing username or token."⟩, db)
  else if usernameS.data.contains ' ' then
    (⟨400, "Spaces are not allowed in emails registered to ReRack"⟩, db)
  else if !is_plausible_email usernameS then
    (⟨400, usernameS ++ " is not a valid email address for use with ReRack"⟩, db)
  else if !tokenShapeOk tokenS then
    (⟨400, "Invalid token"⟩, db)
  else
    let token_hash := generate_password_hash db.nextSalt tokenS
    let dbRng := { db with nextSalt := db.nextSalt + 1 }
    match db.verifications.find? (emailLookup usernameS token_hash) with
    | none => (⟨400, "Verification failed."⟩, dbRng)
    | some verification_record =>
      if verification_record.used then
        (⟨400, "This verification link has been used already."⟩, dbRng)
      else if now > verification_record.expiration_timestamp then
        (⟨400, "Verification link has expired. Please request a new verification link."⟩,
         dbRng)
      else
        match db.users.find? (fun u => u.username == usernameS) with
        | none => (⟨400, "Verification failed. User not found."⟩, dbRng)
        | some _ =>
          (⟨200, "Success! " ++ usernameS ++ " has been verified."⟩,
           { dbRng with
             users := updateFirst (fun u => u.username == usernameS)
               (fun u => { u with verified := true }) db.users,
             verifications := updateFirst (emailLookup usernameS token_hash)
               (fun r => { r with used := true }) db.verifications })

/-- The active-record predicate of `RequestVerificationEmailView.post`:
`filter_by(username=..., used=False).filter(now < expiration_timestamp)`. -/
def emailActive (username : String) (now : Int) (r : VerificationRecord) : Bool :=
  r.username == username && r.used == false &&
    decide (now < r.expiration_timestamp)

/-- The active-record predicate of `RequestPasswordResetView.post`:
`filter_by(username=..., used=False).filter(expiration_timestamp > now)`. -/
def resetActive (username : String) (now : Int) (r : VerificationRecord) : Bool :=
  r.username == username && r.used == false &&
    decide (r.expiration_timestamp > now)

/-- The shared retry-delay rendering of the two throttled branches in
`auth.py` (`delta_seconds` is always at least 2 there): seconds verbatim
under 120; otherwise floor-divide by the unit and add one. -/
def delay_string (delta_seconds : Int) : String :=
  if delta_seconds < 120 then
    toString delta_seconds ++ " seconds"
  else if delta_seconds < 7200 then
    toString (delta_seconds / 60 + 1) ++ " minutes"
  else if delta_seconds < 2 * 86400 then
    toString (delta_seconds / 3600 + 1) ++ " hours"
  else
    toString (delta_seconds / 86400 + 1) ++ " days"

/-- Model of `RequestVerificationEmailView.post` for the authenticated
`current_user` `u`; `emailOk` is whether the mail boundary succeeds. -/
def requestVerificationEmailPost (db : DB) (u : User) (now : Int)
    (emailOk : Bool) : Except PyError HttpResponse × DB :=
  if u.verified then (.ok ⟨403, "User is already verified"⟩, db)
  else
    let active_records := db.verifications.filter (emailActive u.username now)
    if active_records.length > 3 then
      let next_expiry := listMin (active_records.map (·.expiration_timestamp))
      let delta_seconds := max 2 (next_expiry - now)
      (.ok ⟨400, "Multiple verification emails have already been sent. Please check your spam and try again in "
          ++ delay_string delta_seconds⟩, db)
    else
      let built := build_verification_record db u.username true now
      match send_verification_email emailOk with
      | .error e => (.error e, built.2)
      | .ok _ =>
        (.ok ⟨200, "Verification email sent."⟩,
         { built.2 with verifications := db.verifications ++ [built.1.1] })

/-- Model of `RequestPasswordResetView.post`. -/
def requestPasswordResetPost (db : DB) (username : String) (now : Int)
    (emailOk : Bool) : Except PyError HttpResponse × DB :=
  match db.users.find? (fun u => u.username == username) with
  | none => (.ok ⟨400, "Error. User does not exist."⟩, db)
  | some user =>
    if !user.verified then
      (.ok ⟨400, "Error. Cannot reset the password of an unverified user."⟩, db)
    else
      let active_records := db.verifications.filter (resetActive username now)
      if active_records.length > 3 then
        let next_expiry := listMin (active_records.map (·.expiration_timestamp))
        let delta_seconds := max 2 (next_expiry - now)
        (.ok ⟨400, "Multiple password reset emails have already been sent. Please check your spam and try again in "
            ++ delay_string delta_seconds⟩, db)
      else
        let built := build_verification_record db username false now
        match send_password_reset_email emailOk with
        | .error e => (.error e, built.2)
        | .ok _ =>
          (.ok ⟨200, "Password reset email sent"⟩,
           { built.2 with verifications := db.verifications ++ [built.1.1] })

/-- The candidate predicate of `PasswordResetView.post`:
`filter_by(username=...).filter(expiration_timestamp > now)` — note that
`used` is not filtered here. -/
def resetCandidate (username : String) (now : Int) (r : VerificationRecord) : Bool :=
  r.username == username && decide (r.expiration_timestamp > now)

/-- The record actually consumed by `PasswordResetView.post`: the first
candidate whose stored hash verifies the presented token. -/
def resetMatches (username : String) (now : Int) (token : String)
    (r : VerificationRecord) : Bool :=
  resetCandidate username now r && check_password_hash r.token_hash token

/-- Model of `PasswordResetView.post`; `validated` models
`form.validate_on_submit()` (the `PasswordResetForm` itself is not under
`src/`). -/
def passwordResetPost (db : DB) (validated : Bool)
    (username new_password confirm_password token : String) (now : Int) :
    HttpResponse × DB :=
  if validated then
    if new_password ≠ confirm_password then
      (⟨400, "Passwords do not match"⟩, db)
    else
      let verification_records := db.verifications.filter (resetCandidate username now)
      match verification_records.find?
          (fun r => check_password_hash r.token_hash token) with
      | none => (⟨400, "The password reset link has expired."⟩, db)
      | some verification_record =>
        if verification_record.used then
          (⟨400, "Error. This link has already been used."⟩, db)
        else
          match db.users.find? (fun u => u.username == username) with
          | none => (⟨400, "User with username " ++ username ++ " not found."⟩, db)
          | some user =>
            if !user.verified then
              (⟨400, "The user is not verified. Cannot reset password."⟩, db)
            else
              (⟨200, "Success! Password has been reset for " ++ username⟩,
               { db with
                 users := updateFirst (fun u => u.username == username)
                   (fun u => { u with
                     password_hash := generate_password_hash db.nextSalt new_password })
                   db.users,
                 verifications := updateFirst (resetMatches username now token)
                   (fun r => { r with used := true }) db.verifications,
                 nextSalt := db.nextSalt + 1 })
  else (⟨400, "Invalid form submission"⟩, db)

/-- Model of `RegisterView.post`.  The four JSON fields are `none` when the
key is absent (the `expected_fields` check). -/
def registerPost (db : DB)
    (username password confirmed_password display_name : Option String)
    (now : Int) (emailOk : Bool) : Except PyError HttpResponse × DB :=
  match username, password, confirmed_password, display_name with
  | some username, some password, some confirmed_password, some display_name =>
    if !is_plausible_email username then
      (.ok ⟨400, "Username must be a valid email address"⟩, db)
    else if (db.users.find? (fun u => u.username == username)).isSome then
      (.ok ⟨400, "User with this username already exists."⟩, db)
    else if password ≠ confirmed_password then
      (.ok ⟨400, "Passwords do not match."⟩, db)
    else
      let new_user : User :=
        ⟨username, generate_password_hash db.nextSalt password, false, none, none⟩
      let dbU := { db with nextSalt := db.nextSalt + 1 }
      if !db.hasDefaultDictionary then
        (.ok ⟨400, "Internal server error."⟩, dbU)
      else
        let built := build_verification_record dbU username true now
        match send_verification_email emailOk with
        | .error e => (.error e, built.2)
        | .ok _ =>
          (.ok ⟨200, "Verification email sent to " ++ username ++ "."⟩,
           { built.2 with
             users := db.users ++ [new_user],
             players := db.players ++ [⟨username, display_name⟩],
             verifications := db.verifications ++ [built.1.1] })
  | _, _, _, _ => (.ok ⟨401, "Bad request"⟩, db)

/-- Model of `WebsiteRegisterView.post`; `validated` models
`form.validate_on_submit()`.  On the path that passes all form checks the
function evaluates `data["username"]` where no variable `data` is bound
anywhere in the function or module, so a `NameError` propagates before
`db.session.commit()` is reached (the random streams for the new password
hash and the verification token were already consumed). -/
def websiteRegisterPost (db : DB) (validated : Bool)
    (username password confirm_password display_name : String) (now : Int) :
    Except PyError HttpResponse × DB :=
  if validated then
    if (db.users.find? (fun u => u.username == username)).isSome then
      (.ok ⟨200, "User with this username already exists."⟩, db)
    else if password ≠ confirm_password then
      (.ok ⟨200, "Passwords do not match."⟩, db)
    else if !is_plausible_email username then
      (.ok ⟨400, "Username must be a valid email address"⟩, db)
    else
      let dbU := { db with nextSalt := db.nextSalt + 1 }
      let built := build_verification_record dbU username true now
      (.error .nameError, built.2)
  else (.ok ⟨200, "Invalid form submission"⟩, db)

/-- Used-flag monotonicity between two verification-table states: any record
that is `used` keeps (positionally) a `used` successor. -/
def usedMonotone (l lp : List VerificationRecord) : Prop :=
  ∀ i r, l.get? i = some r → r.used = true →
    ∃ rp, lp.get? i = some rp ∧ rp.used = true

/-- The second verification-table state keeps every existing record of the
first unchanged (new records may only be appended). -/
def preservesRecords (l lp : List VerificationRecord) : Prop :=
  ∀ i, i < l.length → lp.get? i = l.get? i

/-- A state with one logged-out-able identity, used to replay the
login/logout/refresh scenario. -/
def dbC1 : DB :=
  { users := [⟨"alice@example.com", ⟨0, "pw"⟩, true, none, some 5⟩],
    verifications := [], players := [], devices := [],
    hasDefaultDictionary := true, nextSalt := 1, nextTok := 0 }

/-- A state with one registered, unverified identity and no verification
records yet. -/
def dbC2base : DB :=
  { users := [⟨"alice@example.com", ⟨0, "pw"⟩, false, none, none⟩],
    verifications := [], players := [], devices := [],
    hasDefaultDictionary := true, nextSalt := 1, nextTok := 0 }

/-- `dbC2base` after persisting the verification record that
`build_verification_record` produced for alice at time 0. -/
def dbC2 : DB :=
  { (build_verification_record dbC2base "alice@example.com" true 0).2 with
    verifications := [(build_verification_record dbC2base "alice@example.com" true 0).1.1] }

/-- A verified identity with exactly three active (unused, unexpired at time
0) password-reset verification records. -/
def dbC3 : DB :=
  { users := [⟨"carol@x.com", ⟨0, "pw"⟩, true, none, none⟩],
    verifications := [⟨"carol@x.com", ⟨1, "t1"⟩, 1000, false⟩,
                      ⟨"carol@x.com", ⟨2, "t2"⟩, 2000, false⟩,
                      ⟨"carol@x.com", ⟨3, "t3"⟩, 3000, false⟩],
    players := [], devices := [], hasDefaultDictionary := true,
    nextSalt := 4, nextTok := 0 }

/-- A state in which no user exists at all. -/
def dbC4a : DB :=
  { users := [], verifications := [], players := [], devices := [],
    hasDefaultDictionary := true, nextSalt := 0, nextTok := 0 }

/-- A state in which `bob@x.com` exists but is not verified. -/
def dbC4b : DB :=
  { users := [⟨"bob@x.com", ⟨0, "pw"⟩, false, none, none⟩],
    verifications := [], players := [], devices := [],
    hasDefaultDictionary := true, nextSalt := 1, nextTok := 0 }

/-- A verified identity holding one active password-reset record whose
stored hash verifies the token `"sek"`. -/
def dbC5 : DB :=
  { users := [⟨"eve@x.com", ⟨0, "pw"⟩, true, none, none⟩],
    verifications := [⟨"eve@x.com", ⟨1, "sek"⟩, 500, false⟩],
    players := [], devices := [], hasDefaultDictionary := true,
    nextSalt := 2, nextTok := 1 }

/-- A state whose single verification record expires exactly at time 100 and
whose stored hash happens to carry the salt the next
`generate_password_hash` call will draw, so the equality lookup of
`EmailVerificationView.post` finds it. -/
def dbC6 : DB :=
  { users := [⟨"a@b.com", ⟨0, "pw"⟩, false, none, none⟩],
    verifications := [⟨"a@b.com", ⟨7, "tok0"⟩, 100, false⟩],
    players := [], devices := [], hasDefaultDictionary := true,
    nextSalt := 7, nextTok := 1 }

/-- A verified identity with four active records whose soonest expiry is 120
seconds away at time 0. -/
def dbC7 : DB :=
  { users := [⟨"dan@x.com", ⟨0, "pw"⟩, true, none, none⟩,
              ⟨"erin@x.com", ⟨9, "pw"⟩, false, none, none⟩],
    verifications := [⟨"dan@x.com", ⟨1, "t1"⟩, 120, false⟩,
                      ⟨"dan@x.com", ⟨2, "t2"⟩, 200, false⟩,
                      ⟨"dan@x.com", ⟨3, "t3"⟩, 300, false⟩,
                      ⟨"dan@x.com", ⟨4, "t4"⟩, 400, false⟩,
                      ⟨"erin@x.com", ⟨5, "e1"⟩, 150, false⟩,
                      ⟨"erin@x.com", ⟨6, "e2"⟩, 250, false⟩,
                      ⟨"erin@x.com", ⟨7, "e3"⟩, 350, false⟩,
                      ⟨"erin@x.com", ⟨8, "e4"⟩, 450, false⟩],
    players := [], devices := [], hasDefaultDictionary := true,
    nextSalt := 10, nextTok := 0 }

/-- The user row of `dbC7` for `dan@x.com`. -/
def danUser : User := ⟨"dan@x.com", ⟨0, "pw"⟩, true, none, none⟩

/-- The (unverified) user row of `dbC7` for `erin@x.com`, playing the
authenticated `current_user` of `RequestVerificationEmailView.post`. -/
def erinUser : User := ⟨"erin@x.com", ⟨9, "pw"⟩, false, none, none⟩

/-- The user row of `dbC5` for `eve@x.com`. -/
def eveUser : User := ⟨"eve@x.com", ⟨0, "pw"⟩, true, none, none⟩

/-- The single verification record of `dbC5`. -/
def eveRecord : VerificationRecord := ⟨"eve@x.com", ⟨1, "sek"⟩, 500, false⟩

/-- The state of the `alice` identity after the login at time 1000 followed
by a logout. -/
def aliceAfterLogout : User := ⟨"alice@example.com", ⟨0, "pw"⟩, true, some 1000, none⟩

/-- An identity whose stored refresh epoch is 5. -/
def uW : User := ⟨"w@x.com", ⟨0, "p"⟩, true, some 5, none⟩

/-- The (unverified) user row of `dbC4b`. -/
def bobUser : User := ⟨"bob@x.com", ⟨0, "pw"⟩, false, none, none⟩

theorem find?_filter_eq (l : List α) (p q : α → Bool) :
    (l.filter p).find? q = l.find? (fun a => p a && q a) := by
  induction l with
  | nil => rfl
  | cons x xs ih =>
    by_cases hp : p x
    · rw [List.filter_cons_of_pos hp]
      by_cases hq : q x
      · rw [List.find?_cons_of_pos _ hq,
            List.find?_cons_of_pos _ (by rw [hp, hq]; rfl)]
      · rw [List.find?_cons_of_neg _ hq,
            List.find?_cons_of_neg _ (by simp [hq]), ih]
    · rw [List.filter_cons_of_neg hp,
          List.find?_cons_of_neg _ (by simp [hp]), ih]

theorem updateFirst_find? (p : α → Bool) (f : α → α) (l : List α) (r : α)
    (h : l.find? p = some r) (hf : p (f r) = true) :
    (updateFirst p f l).find? p = some (f r) := by
  induction l with
  | nil => simp at h
  | cons x xs ih =>
    by_cases hp : p x
    · rw [List.find?_cons_of_pos _ hp] at h
      cases h
      rw [updateFirst, if_pos hp, List.find?_cons_of_pos _ hf]
    · rw [List.find?_cons_of_neg _ hp] at h
      rw [updateFirst, if_neg hp, List.find?_cons_of_neg _ hp]
      exact ih h

theorem usedMonotone_refl (l : List VerificationRecord) : usedMonotone l l :=
  fun i r h hu => ⟨r, h, hu⟩

theorem usedMonotone_updateFirst (p : VerificationRecord → Bool)
    (f : VerificationRecord → VerificationRecord)
    (l : List VerificationRecord)
    (hf : ∀ r, r.used = true → (f r).used = true) :
    usedMonotone l (updateFirst p f l) := by
  induction l with
  | nil => exact fun i r h => by simp at h
  | cons x xs ih =>
    intro i r h hu
    rw [updateFirst]
    by_cases hp : p x
    · rw [if_pos hp]
      cases i with
      | zero =>
        cases h
        exact ⟨f x, rfl, hf x hu⟩
      | succ n => exact ⟨r, h, hu⟩
    · rw [if_neg hp]
      cases i with
      | zero =>
        cases h
        exact ⟨x, rfl, hu⟩
      | succ n => exact ih n r h hu

theorem preservesRecords_append (l t : List VerificationRecord) :
    preservesRecords l (l ++ t) := by
  intro i hi
  exact List.get?_append hi

theorem requestPasswordResetPost_denied
    (db : DB) (username : String) (u : User) (now : Int) (ok : Bool)
    (hfind : db.users.find? (fun x => x.username == username) = some u)
    (hver : u.verified = true)
    (hcount : (db.verifications.filter (resetActive username now)).length > 3) :
    requestPasswordResetPost db username now ok =
      (.ok ⟨400, "Multiple password reset emails have already been sent. Please check your spam and try again in "
        ++ delay_string (max 2 (listMin ((db.verifications.filter (resetActive username now)).map
              (·.expiration_timestamp)) - now))⟩, db) := by
  unfold requestPasswordResetPost
  rw [hfind]
  try dsimp only
  rw [hver]
  rw [if_neg (by simp)]
  try dsimp only
  rw [if_pos hcount]

theorem requestVerificationEmailPost_denied
    (db : DB) (u : User) (now : Int) (ok : Bool)
    (hver : u.verified = false)
    (hcount : (db.verifications.filter (emailActive u.username now)).length > 3) :
    requestVerificationEmailPost db u now ok =
      (.ok ⟨400, "Multiple verification emails have already been sent. Please check your spam and try again in "
        ++ delay_string (max 2 (listMin ((db.verifications.filter (emailActive u.username now)).map
              (·.expiration_timestamp)) - now))⟩, db) := by
  unfold requestVerificationEmailPost
  rw [hver]
  rw [if_neg (by simp)]
  try dsimp only
  rw [if_pos hcount]

theorem passwordResetPost_success_eq
    (db : DB) (username new_password token : String) (now : Int)
    (r : VerificationRecord) (u : User)
    (hr : db.verifications.find? (resetMatches username now token) = some r)
    (hused : r.used = false)
    (hu : db.users.find? (fun x => x.username == username) = some u)
    (hver : u.verified = true) :
    passwordResetPost db true username new_password new_password token now =
      (⟨200, "Success! Password has been reset for " ++ username⟩,
       { db with
         users := updateFirst (fun x => x.username == username)
           (fun x => { x with
             password_hash := generate_password_hash db.nextSalt new_password }) db.users,
         verifications := updateFirst (resetMatches username now token)
           (fun x => { x with used := true }) db.verifications,
         nextSalt := db.nextSalt + 1 }) := by
  have hr2 : (db.verifications.filter (resetCandidate username now)).find?
      (fun x => check_password_hash x.token_hash token) = some r := by
    rw [find?_filter_eq]
    exact hr
  unfold passwordResetPost
  rw [if_pos rfl, if_neg (fun h => h rfl)]
  try dsimp only
  rw [hr2]
  try dsimp only
  rw [if_neg (by simp [hused]), hu]
  try dsimp only
  rw [hver]
  rw [if_neg (by simp)]

/-- C1: code-bug evidence.  After `alice` logs in at time 1000 (her stored
`refresh_token_iat` becomes 1000) and then logs out, her stored
`refresh_token_iat` is still 1000, because `LogoutView.post` assigns
`current_user.token_iat = None` instead of clearing `refresh_token_iat` —
the field `TokenRefreshView.post` actually compares.  A refresh presenting
the pre-logout refresh token (issued-at 1000) at time 2000 is therefore
accepted and a new access token is issued, where the claim (and the code's
own comment, "The refresh token has been invalidated by a user logout")
requires rejection with `RevokedToken` (HTTP 401). -/
theorem c1_refresh_accepted_after_logout :
    (logoutPost (loginPost dbC1 "alice@example.com" "pw" none 1000).2
        "alice@example.com").2.users.find?
      (fun u => u.username == "alice@example.com") = some aliceAfterLogout ∧
    (tokenRefreshPost aliceAfterLogout (some 1000) 2000).1 =
      RefreshResult.refreshed ⟨"alice@example.com", false, 2000⟩
        (2000 + ACCESS_EXPIRES_SECONDS) := by
  decide

/-- C2: code-bug evidence.  A registration verification record is built for
`alice` with a token whose stored salted hash verifies that token
(`check_password_hash` returns true), yet a subsequent
`EmailVerificationView.post` presenting exactly that token is rejected with
"Verification failed.": the handler re-hashes the token with a fresh salt
and looks the record up by equality of the new digest, which never matches
the stored one, instead of iterating candidates with the constant-time
verify as the claim requires. -/
theorem c2_valid_registration_token_rejected :
    check_password_hash
        (build_verification_record dbC2base "alice@example.com" true 0).1.1.token_hash
        (build_verification_record dbC2base "alice@example.com" true 0).1.2 = true ∧
    (emailVerificationPost dbC2 (some "alice@example.com")
        (some (build_verification_record dbC2base "alice@example.com" true 0).1.2) 10).1 =
      ⟨400, "Verification failed."⟩ := by
  decide

/-- C8: `TokenRefreshView.post` rejects a refresh token whose decoded
issued-at marker differs from the stored `refresh_token_iat` (HTTP 401),
otherwise issues a new access token flagged not fresh, and in both cases
leaves the identity — in particular its stored `refresh_token_iat` —
unchanged. -/
theorem c8_refresh_checks_epoch_and_preserves_state
    (u : User) (jwt_iat : Option Int) (now : Int) :
    (tokenRefreshPost u jwt_iat now).2 = u ∧
    (u.refresh_token_iat ≠ some (jwt_iat.getD 0) →
      (tokenRefreshPost u jwt_iat now).1 = RefreshResult.revoked) ∧
    (u.refresh_token_iat = some (jwt_iat.getD 0) →
      (tokenRefreshPost u jwt_iat now).1 =
        RefreshResult.refreshed ⟨u.username, false, now⟩
          (now + ACCESS_EXPIRES_SECONDS)) := by
  unfold tokenRefreshPost
  try dsimp only
  refine ⟨?_, ?_, ?_⟩
  · split <;> rfl
  · intro h
    rw [if_pos h]
  · intro h
    rw [if_neg (fun hn => hn h)]

/-- C8 witness: with stored refresh epoch 5 and a presented token whose
issued-at is 5, refresh at time 50 issues a not-fresh access token. -/
theorem c8_refresh_witness :
    (tokenRefreshPost uW (some 5) 50).1 =
      RefreshResult.refreshed ⟨"w@x.com", false, 50⟩ (50 + ACCESS_EXPIRES_SECONDS) :=
  (c8_refresh_checks_epoch_and_preserves_state uW (some 5) 50).2.2 rfl

/-- C10: any website-form registration that passes form validation with a
non-duplicate username, matching passwords and a plausible email address
raises the `NameError` (the function reads the unbound variable `data`)
before committing, so nothing — no user, no player, no verification
record — is persisted and the flow never completes. -/
theorem c10_website_register_raises_name_error
    (db : DB) (username password display_name : String) (now : Int)
    (hnodup : db.users.find? (fun x => x.username == username) = none)
    (hpl : is_plausible_email username = true) :
    (websiteRegisterPost db true username password password display_name now).1 =
      Except.error PyError.nameError ∧
    (websiteRegisterPost db true username password password display_name now).2.users =
      db.users ∧
    (websiteRegisterPost db true username password password display_name now).2.verifications =
      db.verifications ∧
    (websiteRegisterPost db true username password password display_name now).2.players =
      db.players := by
  have hrun : websiteRegisterPost db true username password password display_name now =
      (Except.error PyError.nameError,
       { db with nextSalt := db.nextSalt + 1 + 1, nextTok := db.nextTok + 1 }) := by
    unfold websiteRegisterPost
    rw [if_pos rfl, hnodup]
    try dsimp only
    rw [if_neg (by simp)]
    rw [if_neg (fun h => h rfl), hpl]
    rw [if_neg (by simp)]
    rfl
  rw [hrun]
  exact ⟨rfl, rfl, rfl, rfl⟩

/-- C10 witness: a concrete valid submission on the empty store raises the
`NameError`. -/
theorem c10_website_register_witness :
    (websiteRegisterPost dbC4a true "a@b.com" "p" "p" "d" 0).1 =
      Except.error PyError.nameError :=
  (c10_website_register_raises_name_error dbC4a "a@b.com" "p" "d" 0 rfl (by decide)).1

/-- C3: counterexample.  With exactly three active (unused, unexpired)
password-reset records for the verified identity `carol`, the next — 4th —
password-reset request is not rejected: the guard is
`len(active_records) > 3`, so the request succeeds and a fourth record is
persisted, contradicting the claim that the 4th request is rejected with no
new record created. -/
theorem c3_fourth_request_with_three_active_is_allowed :
    (dbC3.verifications.filter (resetActive "carol@x.com" 0)).length = 3 ∧
    (requestPasswordResetPost dbC3 "carol@x.com" 0 true).1 =
      Except.ok ⟨200, "Password reset email sent"⟩ ∧
    (requestPasswordResetPost dbC3 "carol@x.com" 0 true).2.verifications.length = 4 := by
  decide

/-- C3 (amended): a begin-verification request is rejected as rate-limited
exactly when the identity already has more than three active records (so
from the 5th request on, not the 4th); the rejection carries a retry delay
computed from a clamped delta of at least 2 seconds (hence strictly
positive), and the store is left completely unchanged — this holds for both
the password-reset and the email-verification request flows. -/
theorem c3_rate_limited_above_three_active
    (db : DB) (username : String) (u cu : User) (now : Int) (ok : Bool)
    (hfind : db.users.find? (fun x => x.username == username) = some u)
    (hver : u.verified = true)
    (hcount : (db.verifications.filter (resetActive username now)).length > 3)
    (hcuver : cu.verified = false)
    (hcucount : (db.verifications.filter (emailActive cu.username now)).length > 3) :
    (2 ≤ max 2 (listMin ((db.verifications.filter (resetActive username now)).map
        (·.expiration_timestamp)) - now) ∧
      requestPasswordResetPost db username now ok =
        (Except.ok ⟨400, "Multiple password reset emails have already been sent. Please check your spam and try again in "
          ++ delay_string (max 2 (listMin ((db.verifications.filter (resetActive username now)).map
                (·.expiration_timestamp)) - now))⟩, db)) ∧
    (2 ≤ max 2 (listMin ((db.verifications.filter (emailActive cu.username now)).map
        (·.expiration_timestamp)) - now) ∧
      requestVerificationEmailPost db cu now ok =
        (Except.ok ⟨400, "Multiple verification emails have already been sent. Please check your spam and try again in "
          ++ delay_string (max 2 (listMin ((db.verifications.filter (emailActive cu.username now)).map
                (·.expiration_timestamp)) - now))⟩, db)) :=
  ⟨⟨le_max_left _ _,
    requestPasswordResetPost_denied db username u now ok hfind hver hcount⟩,
   ⟨le_max_left _ _,
    requestVerificationEmailPost_denied db cu now ok hcuver hcucount⟩⟩

/-- C3 witness: with four active records each for `dan` (password reset) and
for `erin` (email verification), both request flows are rejected and the
store is unchanged. -/
theorem c3_rate_limited_witness :
    requestPasswordResetPost dbC7 "dan@x.com" 0 true =
      (Except.ok ⟨400, "Multiple password reset emails have already been sent. Please check your spam and try again in "
        ++ delay_string (max 2 (listMin ((dbC7.verifications.filter (resetActive "dan@x.com" 0)).map
              (·.expiration_timestamp)) - 0))⟩, dbC7) ∧
    requestVerificationEmailPost dbC7 erinUser 0 true =
      (Except.ok ⟨400, "Multiple verification emails have already been sent. Please check your spam and try again in "
        ++ delay_string (max 2 (listMin ((dbC7.verifications.filter (emailActive erinUser.username 0)).map
              (·.expiration_timestamp)) - 0))⟩, dbC7) :=
  ⟨(c3_rate_limited_above_three_active dbC7 "dan@x.com" danUser erinUser 0 true
      (by decide) rfl (by decide) rfl (by decide)).1.2,
   (c3_rate_limited_above_three_active dbC7 "dan@x.com" danUser erinUser 0 true
      (by decide) rfl (by decide) rfl (by decide)).2.2⟩

/-- C4: counterexample.  `RequestPasswordResetView.post` answers
"Error. User does not exist." when the username is absent and a different
error when it exists unverified, so an error kind outside registration does
reveal whether a username exists, contradicting the claim's second half. -/
theorem c4_password_reset_reveals_username_existence :
    (requestPasswordResetPost dbC4a "bob@x.com" 0 true).1 =
      Except.ok ⟨400, "Error. User does not exist."⟩ ∧
    (requestPasswordResetPost dbC4b "bob@x.com" 0 true).1 =
      Except.ok ⟨400, "Error. Cannot reset the password of an unverified user."⟩ ∧
    (requestPasswordResetPost dbC4a "bob@x.com" 0 true).1 ≠
      (requestPasswordResetPost dbC4b "bob@x.com" 0 true).1 := by
  decide

/-- C4 (amended): the login flow itself is enumeration-safe — whenever the
username is unknown or the password check fails, `LoginView.post` returns
the one identical `InvalidCredentials` response (same status, same message)
and leaves the store unchanged, making the two causes indistinguishable;
the password-reset request flow, however, does reveal username existence
(see the counterexample), beyond the intentional duplicate-username
disclosure of registration. -/
theorem c4_login_error_indistinguishable
    (db : DB) (username password : String) (deviceToken : Option String) (now : Int)
    (h : ∀ u, db.users.find? (fun x => x.username == username) = some u →
        check_password_hash u.password_hash password = false) :
    loginPost db username password deviceToken now = (LoginResult.invalidCredentials, db) := by
  unfold loginPost
  cases hf : db.users.find? (fun x => x.username == username) with
  | none => rfl
  | some u =>
    have hc := h u hf
    simp [hc]

/-- C4 witness: an unknown username and a known username with a wrong
password produce the same login failure value. -/
theorem c4_login_indistinguishable_witness :
    loginPost dbC4a "bob@x.com" "pw" none 0 = (LoginResult.invalidCredentials, dbC4a) ∧
    loginPost dbC4b "bob@x.com" "wrong" none 0 = (LoginResult.invalidCredentials, dbC4b) :=
  ⟨c4_login_error_indistinguishable dbC4a "bob@x.com" "pw" none 0
      (fun _ hu => Option.noConfusion hu),
   c4_login_error_indistinguishable dbC4b "bob@x.com" "wrong" none 0
      (fun u hu => by
        have h2 : bobUser = u := Option.some.inj hu
        subst h2
        decide)⟩

/-- C7: counterexample.  With four active records for `dan` whose soonest
expiry is exactly 120 seconds away, the denied request renders the delay as
"3 minutes" (the code computes `delta // 60 + 1`), where the claim requires
exactly 120 seconds to render as "2 minutes"; 121 seconds also renders as
"3 minutes", not the claim's "2 minutes". -/
theorem c7_exact_two_minutes_renders_three :
    (requestPasswordResetPost dbC7 "dan@x.com" 0 true).1 =
      Except.ok ⟨400, "Multiple password reset emails have already been sent. Please check your spam and try again in 3 minutes"⟩ ∧
    delay_string 120 = "3 minutes" ∧
    delay_string 121 = "3 minutes" := by
  decide

/-- C7 (amended): the suggested retry delay is the minimum remaining time
among the identity's active records, clamped to at least 2 seconds, and
rendered: verbatim in seconds when under 120 seconds; otherwise as
floor-divide-by-the-unit plus one — minutes under 7200 s, hours under
172800 s, days beyond — so a delta that is an exact multiple of the unit
renders one unit higher than rounding up would (120 s gives "3 minutes"). -/
theorem c7_retry_delay_unit_rendering :
    (∀ d : Int, d < 120 → delay_string d = toString d ++ " seconds") ∧
    (∀ d : Int, 120 ≤ d → d < 7200 →
      delay_string d = toString (d / 60 + 1) ++ " minutes") ∧
    (∀ d : Int, 7200 ≤ d → d < 172800 →
      delay_string d = toString (d / 3600 + 1) ++ " hours") ∧
    (∀ d : Int, 172800 ≤ d →
      delay_string d = toString (d / 86400 + 1) ++ " days") ∧
    (∀ (db : DB) (username : String) (u : User) (now : Int) (ok : Bool),
      db.users.find? (fun x => x.username == username) = some u →
      u.verified = true →
      (db.verifications.filter (resetActive username now)).length > 3 →
      (requestPasswordResetPost db username now ok).1 =
        Except.ok ⟨400, "Multiple password reset emails have already been sent. Please check your spam and try again in "
          ++ delay_string (max 2 (listMin ((db.verifications.filter (resetActive username now)).map
                (·.expiration_timestamp)) - now))⟩) := by
  refine ⟨?_, ?_, ?_, ?_, ?_⟩
  · intro d h1
    unfold delay_string
    rw [if_pos h1]
  · intro d h1 h2
    unfold delay_string
    rw [if_neg (by omega), if_pos h2]
  · intro d h1 h2
    unfold delay_string
    rw [if_neg (by omega), if_neg (by omega), if_pos (by omega)]
  · intro d h1
    unfold delay_string
    rw [if_neg (by omega), if_neg (by omega), if_neg (by omega)]
  · intro db username u now ok hfind hver hcount
    rw [requestPasswordResetPost_denied db username u now ok hfind hver hcount]

/-- C7 witness: 121 seconds renders in minutes by floor-plus-one, and a
denied request for `dan` at time 5 carries the rendered minimum remaining
delay. -/
theorem c7_retry_delay_witness :
    delay_string 121 = toString ((121 : Int) / 60 + 1) ++ " minutes" ∧
    (requestPasswordResetPost dbC7 "dan@x.com" 5 true).1 =
      Except.ok ⟨400, "Multiple password reset emails have already been sent. Please check your spam and try again in "
        ++ delay_string (max 2 (listMin ((dbC7.verifications.filter (resetActive "dan@x.com" 5)).map
              (·.expiration_timestamp)) - 5))⟩ :=
  ⟨c7_retry_delay_unit_rendering.2.1 121 (by decide) (by decide),
   c7_retry_delay_unit_rendering.2.2.2.2 dbC7 "dan@x.com" danUser 5 true
     (by decide) rfl (by decide)⟩

/-- C6: counterexample.  A record expiring exactly at time 100 and found by
the lookup is successfully consumed by `EmailVerificationView.post` at time
`now = 100`: the code's expiry test is `now > expiration_timestamp`, so at
`now` equal to the expiration timestamp — when the record is no longer
active (`now < expiration_timestamp` fails) — consumption succeeds instead
of yielding `Expired`. -/
theorem c6_consume_at_expiration_instant_succeeds :
    dbC6.verifications = [⟨"a@b.com", ⟨7, "tok0"⟩, 100, false⟩] ∧
    (emailVerificationPost dbC6 (some "a@b.com") (some "tok0") 100).1 =
      ⟨200, "Success! a@b.com has been verified."⟩ := by
  decide

/-- C6 (amended): consumption strictly after the expiration timestamp is
rejected as expired: the email-verification flow answers the expired
message whenever the looked-up unused record has `now >
expiration_timestamp` (only at exactly the expiration instant can it still
succeed), and the password-reset flow can only ever consume a record whose
expiration timestamp is strictly greater than `now`. -/
theorem c6_strictly_expired_never_consumed :
    (∀ (db : DB) (usernameS tokenS : String) (now : Int) (r : VerificationRecord),
      (usernameS == "") = false → (tokenS == "") = false →
      usernameS.data.contains ' ' = false →
      is_plausible_email usernameS = true →
      tokenShapeOk tokenS = true →
      db.verifications.find?
        (emailLookup usernameS (generate_password_hash db.nextSalt tokenS)) = some r →
      r.used = false →
      now > r.expiration_timestamp →
      (emailVerificationPost db (some usernameS) (some tokenS) now).1 =
        ⟨400, "Verification link has expired. Please request a new verification link."⟩) ∧
    (∀ (username token : String) (now : Int) (r : VerificationRecord)
        (l : List VerificationRecord),
      l.find? (resetMatches username now token) = some r →
      now < r.expiration_timestamp) := by
  constructor
  · intro db usernameS tokenS now r h1 h2 h3 h4 h5 hr hused hexp
    unfold emailVerificationPost
    simp only [Option.getD_some]
    rw [h1, h2]
    rw [if_neg (by simp)]
    rw [h3]
    rw [if_neg (by simp)]
    rw [h4]
    rw [if_neg (by simp)]
    rw [h5]
    rw [if_neg (by simp)]
    try dsimp only
    rw [hr]
    try dsimp only
    rw [if_neg (by simp [hused]), if_pos hexp]
  · intro username token now r l hfind
    have h := List.find?_some hfind
    unfold resetMatches resetCandidate at h
    simp only [Bool.and_eq_true, decide_eq_true_eq] at h
    exact h.1.2

/-- C6 witness: the same record, consumed one second after its expiration,
is rejected with the expired message; and the record consumed by a
password-reset at time 10 indeed expires strictly later than 10. -/
theorem c6_strictly_expired_witness :
    (emailVerificationPost dbC6 (some "a@b.com") (some "tok0") 101).1 =
      ⟨400, "Verification link has expired. Please request a new verification link."⟩ ∧
    (10 : Int) < eveRecord.expiration_timestamp :=
  ⟨c6_strictly_expired_never_consumed.1 dbC6 "a@b.com" "tok0" 101
      ⟨"a@b.com", ⟨7, "tok0"⟩, 100, false⟩
      (by decide) (by decide) (by decide) (by decide) (by decide) (by decide)
      rfl (by decide),
   c6_strictly_expired_never_consumed.2 "eve@x.com" "sek" 10 eveRecord
      dbC5.verifications (by decide)⟩

/-- C9: a failing email dispatch surfaces synchronously: the mail helpers
re-raise the `SMTPException` as an error, and because dispatch happens
before `db.session.commit()` in all three begin-verification flows
(password-reset request, verification-email request, registration), the
error propagates to the caller and neither the new verification record nor
any other row is persisted. -/
theorem c9_smtp_failure_propagates_nothing_persisted :
    send_verification_email false = Except.error PyError.smtpError ∧
    send_password_reset_email false = Except.error PyError.smtpError ∧
    (∀ (db : DB) (username : String) (u : User) (now : Int),
      db.users.find? (fun x => x.username == username) = some u →
      u.verified = true →
      ¬ (db.verifications.filter (resetActive username now)).length > 3 →
      (requestPasswordResetPost db username now false).1 = Except.error PyError.smtpError ∧
      (requestPasswordResetPost db username now false).2.verifications = db.verifications ∧
      (requestPasswordResetPost db username now false).2.users = db.users) ∧
    (∀ (db : DB) (u : User) (now : Int),
      u.verified = false →
      ¬ (db.verifications.filter (emailActive u.username now)).length > 3 →
      (requestVerificationEmailPost db u now false).1 = Except.error PyError.smtpError ∧
      (requestVerificationEmailPost db u now false).2.verifications = db.verifications ∧
      (requestVerificationEmailPost db u now false).2.users = db.users) ∧
    (∀ (db : DB) (username password display_name : String) (now : Int),
      is_plausible_email username = true →
      db.users.find? (fun x => x.username == username) = none →
      db.hasDefaultDictionary = true →
      (registerPost db (some username) (some password) (some password)
          (some display_name) now false).1 = Except.error PyError.smtpError ∧
      (registerPost db (some username) (some password) (some password)
          (some display_name) now false).2.verifications = db.verifications ∧
      (registerPost db (some username) (some password) (some password)
          (some display_name) now false).2.users = db.users) := by
  refine ⟨rfl, rfl, ?_, ?_, ?_⟩
  · intro db username u now hfind hver hcount
    have hrun : requestPasswordResetPost db username now false =
        (Except.error PyError.smtpError, (build_verification_record db username false now).2) := by
      unfold requestPasswordResetPost
      rw [hfind]
      try dsimp only
      rw [hver]
      rw [if_neg (by simp)]
      try dsimp only
      rw [if_neg hcount]
      rfl
    rw [hrun]
    exact ⟨rfl, rfl, rfl⟩
  · intro db u now hver hcount
    have hrun : requestVerificationEmailPost db u now false =
        (Except.error PyError.smtpError, (build_verification_record db u.username true now).2) := by
      unfold requestVerificationEmailPost
      rw [hver]
      rw [if_neg (by simp)]
      try dsimp only
      rw [if_neg hcount]
      rfl
    rw [hrun]
    exact ⟨rfl, rfl, rfl⟩
  · intro db username password display_name now hpl hnone hdict
    have hrun : registerPost db (some username) (some password) (some password)
        (some display_name) now false =
        (Except.error PyError.smtpError,
         (build_verification_record { db with nextSalt := db.nextSalt + 1 }
            username true now).2) := by
      unfold registerPost
      try dsimp only
      rw [hpl]
      rw [if_neg (by simp)]
      rw [hnone]
      try dsimp only
      rw [if_neg (by simp)]
      rw [if_neg (fun h => h rfl)]
      rw [hdict]
      rw [if_neg (by simp)]
      rfl
    rw [hrun]
    exact ⟨rfl, rfl, rfl⟩

/-- C9 witness: with three concrete stores, a failing dispatch makes each of
the three begin-verification flows fail with the transport error. -/
theorem c9_smtp_failure_witness :
    (requestPasswordResetPost dbC5 "eve@x.com" 10 false).1 =
      Except.error PyError.smtpError ∧
    (requestVerificationEmailPost dbC4b bobUser 0 false).1 =
      Except.error PyError.smtpError ∧
    (registerPost dbC4a (some "a@b.com") (some "p") (some "p") (some "d") 0 false).1 =
      Except.error PyError.smtpError :=
  ⟨(c9_smtp_failure_propagates_nothing_persisted.2.2.1 dbC5 "eve@x.com" eveUser 10
      (by decide) rfl (by decide)).1,
   (c9_smtp_failure_propagates_nothing_persisted.2.2.2.1 dbC4b bobUser 0
      rfl (by decide)).1,
   (c9_smtp_failure_propagates_nothing_persisted.2.2.2.2 dbC4a "a@b.com" "p" "d" 0
      (by decide) rfl rfl).1⟩

/-- C5: a verification record is consumed at most once.  For the
password-reset consumption: when the first candidate whose stored hash
verifies the token is unused (and the user exists and is verified), the
consumption succeeds and flips that record's `used` flag to true; an
immediately repeated consumption with the same valid token is rejected with
the already-used error.  Moreover the `used` flag only ever travels from
false to true: both consuming handlers are used-monotone on the
verification table, and the three record-creating handlers leave every
existing record untouched. -/
theorem c5_verification_consumed_at_most_once
    (db : DB) (username new_password token : String) (now : Int)
    (r : VerificationRecord) (u : User)
    (hr : db.verifications.find? (resetMatches username now token) = some r)
    (hused : r.used = false)
    (hu : db.users.find? (fun x => x.username == username) = some u)
    (hver : u.verified = true) :
    (passwordResetPost db true username new_password new_password token now).1 =
      ⟨200, "Success! Password has been reset for " ++ username⟩ ∧
    (passwordResetPost db true username new_password new_password token now).2.verifications.find?
        (resetMatches username now token) = some { r with used := true } ∧
    (passwordResetPost
        (passwordResetPost db true username new_password new_password token now).2
        true username new_password new_password token now).1 =
      ⟨400, "Error. This link has already been used."⟩ ∧
    (∀ (db2 : DB) (v2 : Bool) (un2 np2 cp2 tok2 : String) (now2 : Int),
      usedMonotone db2.verifications
        (passwordResetPost db2 v2 un2 np2 cp2 tok2 now2).2.verifications) ∧
    (∀ (db2 : DB) (un2 tok2 : Option String) (now2 : Int),
      usedMonotone db2.verifications
        (emailVerificationPost db2 un2 tok2 now2).2.verifications) ∧
    (∀ (db2 : DB) (un2 : String) (now2 : Int) (ok2 : Bool),
      preservesRecords db2.verifications
        (requestPasswordResetPost db2 un2 now2 ok2).2.verifications) ∧
    (∀ (db2 : DB) (u2 : User) (now2 : Int) (ok2 : Bool),
      preservesRecords db2.verifications
        (requestVerificationEmailPost db2 u2 now2 ok2).2.verifications) ∧
    (∀ (db2 : DB) (a b c d : Option String) (now2 : Int) (ok2 : Bool),
      preservesRecords db2.verifications
        (registerPost db2 a b c d now2 ok2).2.verifications) := by
  have hmatch : resetMatches username now token { r with used := true } = true := by
    have heq : resetMatches username now token { r with used := true } =
        resetMatches username now token r := rfl
    rw [heq]
    exact List.find?_some hr
  have hrun := passwordResetPost_success_eq db username new_password token now r u
    hr hused hu hver
  have hfind2 : (passwordResetPost db true username new_password new_password
      token now).2.verifications.find? (resetMatches username now token) =
      some { r with used := true } := by
    rw [hrun]
    exact updateFirst_find? _ _ _ _ hr hmatch
  refine ⟨?_, hfind2, ?_, ?_, ?_, ?_, ?_, ?_⟩
  · rw [hrun]
  · have h2 : ((updateFirst (resetMatches username now token)
        (fun x => { x with used := true }) db.verifications).filter
        (resetCandidate username now)).find?
        (fun x => check_password_hash x.token_hash token) = some { r with used := true } := by
      rw [find?_filter_eq]
      exact updateFirst_find? _ _ _ _ hr hmatch
    rw [hrun]
    try dsimp only
    unfold passwordResetPost
    rw [if_pos rfl, if_neg (fun h => h rfl)]
    try dsimp only
    rw [h2]
    try dsimp only
    rw [if_pos rfl]
  · intro db2 v2 un2 np2 cp2 tok2 now2
    unfold passwordResetPost
    try dsimp only
    repeat' split
    all_goals
      first
        | exact usedMonotone_refl _
        | exact usedMonotone_updateFirst _ _ _ (fun _ _ => rfl)
  · intro db2 un2 tok2 now2
    unfold emailVerificationPost
    try dsimp only
    repeat' split
    all_goals
      first
        | exact usedMonotone_refl _
        | exact usedMonotone_updateFirst _ _ _ (fun _ _ => rfl)
  · intro db2 un2 now2 ok2
    unfold requestPasswordResetPost
    try dsimp only
    repeat' split
    all_goals
      first
        | exact fun i hi => rfl
        | exact preservesRecords_append _ _
  · intro db2 u2 now2 ok2
    unfold requestVerificationEmailPost
    try dsimp only
    repeat' split
    all_goals
      first
        | exact fun i hi => rfl
        | exact preservesRecords_append _ _
  · intro db2 a b c d now2 ok2
    unfold registerPost
    try dsimp only
    repeat' split
    all_goals
      first
        | exact fun i hi => rfl
        | exact preservesRecords_append _ _

/-- C5 witness: `eve` consumes her reset record once with success; the
second consumption of the same token is rejected as already used. -/
theorem c5_consume_twice_witness :
    (passwordResetPost dbC5 true "eve@x.com" "np" "np" "sek" 10).1 =
      ⟨200, "Success! Password has been reset for " ++ "eve@x.com"⟩ ∧
    (passwordResetPost (passwordResetPost dbC5 true "eve@x.com" "np" "np" "sek" 10).2
        true "eve@x.com" "np" "np" "sek" 10).1 =
      ⟨400, "Error. This link has already been used."⟩ :=
  ⟨(c5_verification_consumed_at_most_once dbC5 "eve@x.com" "np" "sek" 10
      eveRecord eveUser (by decide) rfl (by decide) rfl).1,
   (c5_verification_consumed_at_most_once dbC5 "eve@x.com" "np" "sek" 10
      eveRecord eveUser (by decide) rfl (by decide) rfl).2.2.1⟩
